import Mathlib

/-!
Verification development for `scripts/aggregate-status.py` (v2.1.2), a script
that aggregates per-agent JSON status files from the `agent-status` directory
into a single Markdown status board `AGENT-STATUS.md`.

The script is shallowly embedded: JSON values are an inductive type, the
filesystem is a record of the status directory state, and the process clock is
a stream of samples consumed by the successive `datetime.now(timezone.utc)`
calls.  Library behaviour that the script delegates to `datetime`
(`fromisoformat` parsing and `isoformat` printing) is kept abstract in an
environment record; the `timedelta` string rendering, which the script string
splits, is modelled concretely.
-/

/-- JSON values as produced by `json.load`. -/
inductive Json where
  | null : Json
  | bool : Bool → Json
  | num : Int → Json
  | str : String → Json
  | arr : List Json → Json
  | obj : List (String × Json) → Json
deriving Repr

mutual

/-- Decidable equality of JSON values. -/
def Json.decEq : (a b : Json) → Decidable (a = b)
  | .null, .null => isTrue rfl
  | .null, .bool _ => isFalse (fun h => Json.noConfusion h)
  | .null, .num _ => isFalse (fun h => Json.noConfusion h)
  | .null, .str _ => isFalse (fun h => Json.noConfusion h)
  | .null, .arr _ => isFalse (fun h => Json.noConfusion h)
  | .null, .obj _ => isFalse (fun h => Json.noConfusion h)
  | .bool _, .null => isFalse (fun h => Json.noConfusion h)
  | .bool a, .bool b =>
      match Bool.decEq a b with
      | isTrue h => isTrue (by rw [h])
      | isFalse h => isFalse (fun he => h (Json.bool.inj he))
  | .bool _, .num _ => isFalse (fun h => Json.noConfusion h)
  | .bool _, .str _ => isFalse (fun h => Json.noConfusion h)
  | .bool _, .arr _ => isFalse (fun h => Json.noConfusion h)
  | .bool _, .obj _ => isFalse (fun h => Json.noConfusion h)
  | .num _, .null => isFalse (fun h => Json.noConfusion h)
  | .num _, .bool _ => isFalse (fun h => Json.noConfusion h)
  | .num a, .num b =>
      match Int.decEq a b with
      | isTrue h => isTrue (by rw [h])
      | isFalse h => isFalse (fun he => h (Json.num.inj he))
  | .num _, .str _ => isFalse (fun h => Json.noConfusion h)
  | .num _, .arr _ => isFalse (fun h => Json.noConfusion h)
  | .num _, .obj _ => isFalse (fun h => Json.noConfusion h)
  | .str _, .null => isFalse (fun h => Json.noConfusion h)
  | .str _, .bool _ => isFalse (fun h => Json.noConfusion h)
  | .str _, .num _ => isFalse (fun h => Json.noConfusion h)
  | .str a, .str b =>
      match String.decEq a b with
      | isTrue h => isTrue (by rw [h])
      | isFalse h => isFalse (fun he => h (Json.str.inj he))
  | .str _, .arr _ => isFalse (fun h => Json.noConfusion h)
  | .str _, .obj _ => isFalse (fun h => Json.noConfusion h)
  | .arr _, .null => isFalse (fun h => Json.noConfusion h)
  | .arr _, .bool _ => isFalse (fun h => Json.noConfusion h)
  | .arr _, .num _ => isFalse (fun h => Json.noConfusion h)
  | .arr _, .str _ => isFalse (fun h => Json.noConfusion h)
  | .arr xs, .arr ys =>
      match Json.decEqList xs ys with
      | isTrue h => isTrue (by rw [h])
      | isFalse h => isFalse (fun he => h (Json.arr.inj he))
  | .arr _, .obj _ => isFalse (fun h => Json.noConfusion h)
  | .obj _, .null => isFalse (fun h => Json.noConfusion h)
  | .obj _, .bool _ => isFalse (fun h => Json.noConfusion h)
  | .obj _, .num _ => isFalse (fun h => Json.noConfusion h)
  | .obj _, .str _ => isFalse (fun h => Json.noConfusion h)
  | .obj _, .arr _ => isFalse (fun h => Json.noConfusion h)
  | .obj fs, .obj gs =>
      match Json.decEqFields fs gs with
      | isTrue h => isTrue (by rw [h])
      | isFalse h => isFalse (fun he => h (Json.obj.inj he))

/-- Decidable equality of JSON value lists. -/
def Json.decEqList : (xs ys : List Json) → Decidable (xs = ys)
  | [], [] => isTrue rfl
  | [], _ :: _ => isFalse (fun h => List.noConfusion h)
  | _ :: _, [] => isFalse (fun h => List.noConfusion h)
  | x :: xs, y :: ys =>
      match Json.decEq x y, Json.decEqList xs ys with
      | isTrue h1, isTrue h2 => isTrue (by rw [h1, h2])
      | isFalse h1, _ => isFalse (fun he => h1 ((List.cons.inj he).1))
      | _, isFalse h2 => isFalse (fun he => h2 ((List.cons.inj he).2))

/-- Decidable equality of JSON object field lists. -/
def Json.decEqFields : (xs ys : List (String × Json)) → Decidable (xs = ys)
  | [], [] => isTrue rfl
  | [], _ :: _ => isFalse (fun h => List.noConfusion h)
  | _ :: _, [] => isFalse (fun h => List.noConfusion h)
  | (k, v) :: xs, (k2, v2) :: ys =>
      match String.decEq k k2, Json.decEq v v2, Json.decEqFields xs ys with
      | isTrue h0, isTrue h1, isTrue h2 => isTrue (by rw [h0, h1, h2])
      | isFalse h0, _, _ =>
          isFalse (fun he => h0 (congrArg (fun l => (l.headD ("", .null)).1) he))
      | _, isFalse h1, _ =>
          isFalse (fun he => h1 (congrArg (fun l => (l.headD ("", .null)).2) he))
      | _, _, isFalse h2 => isFalse (fun he => h2 ((List.cons.inj he).2))

end

instance : DecidableEq Json := Json.decEq

/-- Python truthiness of a JSON value, as tested by `if agent_data:`. -/
def Json.truthy : Json → Bool
  | .null => false
  | .bool b => b
  | .num n => decide (n ≠ 0)
  | .str s => !s.isEmpty
  | .arr xs => !xs.isEmpty
  | .obj fs => !fs.isEmpty

/-- The Python type name of a JSON value, as it appears in error messages. -/
def Json.typeName : Json → String
  | .null => "NoneType"
  | .bool _ => "bool"
  | .num _ => "int"
  | .str _ => "str"
  | .arr _ => "list"
  | .obj _ => "dict"

mutual

/-- Python `repr()` of a JSON value. -/
def Json.pyRepr : Json → String
  | .null => "None"
  | .bool true => "True"
  | .bool false => "False"
  | .num n => toString n
  | .str s => "\x27" ++ s ++ "\x27"
  | .arr xs => "[" ++ Json.pyReprSeq xs ++ "]"
  | .obj fs => "\x7b" ++ Json.pyReprFields fs ++ "\x7d"

/-- Comma separated `repr()` of list elements. -/
def Json.pyReprSeq : List Json → String
  | [] => ""
  | [x] => Json.pyRepr x
  | x :: y :: xs => Json.pyRepr x ++ ", " ++ Json.pyReprSeq (y :: xs)

/-- Comma separated `repr()` of dict entries. -/
def Json.pyReprFields : List (String × Json) → String
  | [] => ""
  | [(k, v)] => "\x27" ++ k ++ "\x27: " ++ Json.pyRepr v
  | (k, v) :: e :: fs =>
      "\x27" ++ k ++ "\x27: " ++ Json.pyRepr v ++ ", " ++ Json.pyReprFields (e :: fs)

end

/-- Python `str()` of a JSON value, as used by f-string interpolation. -/
def Json.pyStr : Json → String
  | .str s => s
  | j => j.pyRepr

/-- A loaded agent record: the field list of a JSON object (a Python dict). -/
abbrev AgentRec := List (String × Json)

/-- Dict lookup, `d[k]` / `d.get(k)` without a default. -/
def lookupField : AgentRec → String → Option Json
  | [], _ => none
  | (k, v) :: rest, key => if k = key then some v else lookupField rest key

/-- Python `d.get(k, default)`. -/
def pyGet (r : AgentRec) (k : String) (d : Json) : Json :=
  (lookupField r k).getD d

/-- Library behaviour the script delegates to `datetime`: `fromisoformat`
(returning the parsed instant in microseconds since the epoch, or `none` when
parsing raises) and the `isoformat` rendering with the `+00:00` suffix already
replaced by `Z` as on source lines 27, 81 and 200. -/
structure Env where
  parseTime : String → Option Int
  formatTs : Int → String

/-- The process clock: `sample i` is the value, in microseconds since the
epoch, returned by the `i`-th call to `datetime.now(timezone.utc)` in the run. -/
structure Clock where
  sample : Nat → Int

instance {ε α : Type} [DecidableEq ε] [DecidableEq α] : DecidableEq (Except ε α) :=
  fun a b =>
    match a, b with
    | .ok x, .ok y =>
        match decEq x y with
        | isTrue h => isTrue (by rw [h])
        | isFalse h => isFalse (fun he => h (Except.ok.inj he))
    | .ok _, .error _ => isFalse (fun h => Except.noConfusion h)
    | .error _, .ok _ => isFalse (fun h => Except.noConfusion h)
    | .error x, .error y =>
        match decEq x y with
        | isTrue h => isTrue (by rw [h])
        | isFalse h => isFalse (fun he => h (Except.error.inj he))

/-- The outcome `json.load` produces for one record file: a parsed value, an
exception of one of the two classes the script catches on line 17
(`json.JSONDecodeError` for malformed content, `IOError` for a read failure),
or an exception of any other class — such as `UnicodeDecodeError` for file
bytes that are not valid UTF-8, or `RecursionError` for deeply nested
content — which the `except` clause does not catch. -/
inductive FileRead where
  | ok : Json → FileRead
  | error : String → FileRead
  | fatal : String → FileRead
deriving DecidableEq

/-- The `agent-status` directory: whether it exists, and its `*.json` files in
glob order, each carrying the outcome `json.load` would produce for it. -/
structure FS where
  dirExists : Bool
  files : List (String × FileRead)
deriving DecidableEq

/-- `safe_json_load` (source lines 12-19): the parsed value, or `None` plus a
printed warning when `json.load` raises one of the two caught classes
`(json.JSONDecodeError, IOError)`.  An exception of any other class is not
caught and propagates to the caller (the `Except.error` case). -/
def safe_json_load (filepath : String) (content : FileRead) :
    Except String (Option Json × List String) :=
  match content with
  | .ok j => .ok (some j, [])
  | .error e => .ok (none, ["Warning: Could not read " ++ filepath ++ ": " ++ e])
  | .fatal e => .error e

/-- The fields of the synthetic system record (source lines 21-29); `t` is the
clock sample taken for `lastUpdate`. -/
def systemFields (env : Env) (t : Int) : AgentRec :=
  [("agentId", .str "system"),
   ("type", .str "system"),
   ("status", .str "idle"),
   ("lastUpdate", .str (env.formatTs t)),
   ("message", .str "System initialized. Waiting for first coordinator run.")]

/-- `create_system_status` (source lines 21-29). -/
def create_system_status (env : Env) (t : Int) : Json :=
  .obj (systemFields env t)

/-- The load loop of source lines 60-63: each file in glob order through
`safe_json_load`, keeping truthy values (`if agent_data:`) and collecting the
printed warnings; an exception `safe_json_load` does not catch aborts the
loop — and with it the whole aggregation. -/
def loadLoop : List (String × FileRead) → Except String (List Json × List String)
  | [] => .ok ([], [])
  | (nm, content) :: rest =>
    match safe_json_load nm content with
    | .error e => .error e
    | .ok (od, ws) =>
      match loadLoop rest with
      | .error e => .error e
      | .ok (agents, ws2) =>
        match od with
        | some j =>
          if j.truthy then .ok (j :: agents, ws ++ ws2) else .ok (agents, ws ++ ws2)
        | none => .ok (agents, ws ++ ws2)

/-- The records the load loop keeps when no file raises an uncaught
exception: caught failures are dropped by `safe_json_load` returning `None`,
falsy values by the `if agent_data:` test (see `loadLoop_eq_of_no_fatal`). -/
def loadRecords (files : List (String × FileRead)) : List Json :=
  files.filterMap fun p =>
    match p.2 with
    | .ok j => if j.truthy then some j else none
    | .error _ => none
    | .fatal _ => none

/-- The warnings the load loop prints, in file order, when no file raises an
uncaught exception. -/
def loadWarnings (files : List (String × FileRead)) : List String :=
  files.filterMap fun p =>
    match p.2 with
    | .error e => some ("Warning: Could not read " ++ p.1 ++ ": " ++ e)
    | .ok _ => none
    | .fatal _ => none

/-- Whether some file raises an exception the load loop does not catch. -/
def hasFatal : List (String × FileRead) → Bool
  | [] => false
  | (_, .fatal _) :: _ => true
  | _ :: rest => hasFatal rest

theorem loadLoop_eq_of_no_fatal :
    ∀ files, hasFatal files = false →
      loadLoop files = .ok (loadRecords files, loadWarnings files)
  | [] => fun _ => rfl
  | (nm, content) :: rest => fun h => by
    cases content with
    | fatal e => simp [hasFatal] at h
    | ok j =>
      have hr : hasFatal rest = false := by simpa [hasFatal] using h
      rw [loadLoop, safe_json_load, loadLoop_eq_of_no_fatal rest hr]
      by_cases ht : j.truthy = true <;>
        simp [loadRecords, loadWarnings, List.filterMap_cons, ht]
    | error e =>
      have hr : hasFatal rest = false := by simpa [hasFatal] using h
      rw [loadLoop, safe_json_load, loadLoop_eq_of_no_fatal rest hr]
      simp [loadRecords, loadWarnings, List.filterMap_cons]

/-- The Loader stage (source lines 34-63): bootstrap a missing directory with
the system record, synthesize the system record for an empty directory, or
read every file.  Returns the load outcome (the loaded values and console
lines, or the uncaught exception), the directory state afterwards, and the
index of the next unconsumed clock sample. -/
def loadPhase (env : Env) (c : Clock) (fs : FS) :
    Except String (List Json × List String) × FS × Nat :=
  if fs.dirExists = false then
    let sys := create_system_status env (c.sample 0)
    (.ok ([sys],
       ["Creating agent-status directory...", "Created agent-status/system.json"]),
     ⟨true, [("agent-status/system.json", .ok sys)]⟩, 1)
  else if fs.files.isEmpty then
    let sys := create_system_status env (c.sample 0)
    (.ok ([sys],
       ["No agent status files found, creating empty status board"]),
     ⟨true, [("agent-status/system.json", .ok sys)]⟩, 1)
  else
    (loadLoop fs.files, fs, 0)

/-- The priority rank of a status value: `priority.get(status, 5)` over the
fixed dict of source lines 66-72. -/
def priorityRank : Json → Nat
  | .str "in_progress" => 0
  | .str "blocked" => 1
  | .str "waiting" => 2
  | .str "idle" => 3
  | .str "completed" => 4
  | _ => 5

/-- Sort position of a JSON value used as a tie-breaking comparison key.
Strings order lexicographically, as the Python `<` does; comparing a string
with a non-string raises `TypeError` in the source and is totalised here, a
corner no run in this development reaches. -/
def jsonOrd : Json → Nat × String
  | .str s => (0, s)
  | _ => (1, "")

/-- The sort key of source lines 73-76:
`(priority.get(a.get('status', 'idle'), 5), a.get('agentId', 'unknown'))`. -/
def sortKey (r : AgentRec) : Nat × Nat × String :=
  (priorityRank (pyGet r "status" (.str "idle")),
   jsonOrd (pyGet r "agentId" (.str "unknown")))

/-- Lexicographic comparison of character lists by code point, the order
Python uses on strings. -/
def charListLe : List Char → List Char → Bool
  | [], _ => true
  | _ :: _, [] => false
  | c :: cs, d :: ds =>
    if c.toNat < d.toNat then true
    else if d.toNat < c.toNat then false
    else charListLe cs ds

/-- Lexicographic string comparison by code point. -/
def strLe (a b : String) : Bool := charListLe a.data b.data

/-- Lexicographic comparison on a rank paired with a string. -/
def pairLe (a b : Nat × String) : Bool :=
  decide (a.1 < b.1) || (decide (a.1 = b.1) && strLe a.2 b.2)

/-- Lexicographic comparison of full sort keys. -/
def keyLe (a b : Nat × Nat × String) : Bool :=
  decide (a.1 < b.1) || (decide (a.1 = b.1) && pairLe a.2 b.2)

/-- Stable insertion of `a` into `l`: `a` is placed before the first element
whose key is not strictly smaller. -/
def insertKey {α κ : Type} (key : α → κ) (kle : κ → κ → Bool) (a : α) :
    List α → List α
  | [] => [a]
  | b :: l => if kle (key a) (key b) then a :: b :: l else b :: insertKey key kle a l

/-- Stable sort by a key, modelling Python `list.sort(key=...)` (a stable sort
by the precomputed keys). -/
def sortByKey {α κ : Type} (key : α → κ) (kle : κ → κ → Bool) : List α → List α
  | [] => []
  | a :: l => insertKey key kle a (sortByKey key kle l)

/-- Reading a loaded value as a dict, as the sort key computation of source
line 74 does: calling `.get` on a non-dict raises `AttributeError`. -/
def asObj : Json → Except String AgentRec
  | .obj fs => .ok fs
  | j => .error ("AttributeError: " ++ j.typeName ++ " object has no attribute get")

/-- The Classifier/Sorter stage (source lines 65-76): computing the key of a
non-dict value raises; otherwise the records are stably sorted by
`(priority rank, agentId)`. -/
def sortPhase (agents : List Json) : Except String (List AgentRec) :=
  (agents.mapM asObj).map (sortByKey sortKey keyLe)

/-- Zero padding on the left to width `w`. -/
def zeroPad (w : Nat) (s : String) : String :=
  String.mk (List.replicate (w - s.length) '0') ++ s

/-- Two digit zero padded rendering of a component in `[0, 60)`. -/
def pad2 (n : Int) : String :=
  if n < 10 then "0" ++ toString n else toString n

/-- Python `str(timedelta)` for a delta of `micros` microseconds: days are
floored (and carry the sign), the remainder is rendered `H:MM:SS` with an
unpadded hour, and a nonzero microsecond remainder appends `.ffffff`. -/
def pyTimedeltaStr (micros : Int) : String :=
  let days := Int.ediv micros 86400000000
  let rem := Int.emod micros 86400000000
  let secs := Int.ediv rem 1000000
  let us := Int.emod rem 1000000
  let h := Int.ediv secs 3600
  let m := Int.ediv (Int.emod secs 3600) 60
  let s := Int.emod secs 60
  let dayPart :=
    if days = 0 then ""
    else toString days ++ (if days = 1 ∨ days = -1 then " day, " else " days, ")
  let usPart := if us = 0 then "" else "." ++ zeroPad 6 (toString us)
  dayPart ++ toString h ++ ":" ++ pad2 m ++ ":" ++ pad2 s ++ usPart

/-- Whether the second character list starts with the first. -/
def startsWithL : List Char → List Char → Bool
  | [], _ => true
  | _ :: _, [] => false
  | p :: ps, c :: cs => decide (p = c) && startsWithL ps cs

/-- The prefix of a character list before the first dot. -/
def dropDotList : List Char → List Char
  | [] => []
  | c :: cs => if c = '.' then [] else c :: dropDotList cs

/-- Python `s.split('.')[0]`: the prefix before the first dot. -/
def dropDot (s : String) : String :=
  String.mk (dropDotList s.data)

/-- One pass of Python `str.replace` over a character list, with fuel for
structural recursion (the fuel is the list length, enough for every step).
A match consumes the whole pattern and emits the replacement; the empty
pattern (never used by the script, which only replaces "Z") leaves the list
unchanged. -/
def replaceFuel (pat rep : List Char) : Nat → List Char → List Char
  | _, [] => []
  | 0, l => l
  | fuel + 1, c :: cs =>
    if pat.isEmpty then c :: cs
    else if startsWithL pat (c :: cs) then
      rep ++ replaceFuel pat rep fuel (List.drop (pat.length - 1) cs)
    else c :: replaceFuel pat rep fuel cs

/-- Python `s.replace(pat, rep)`: every non-overlapping occurrence, left to
right. -/
def pyReplace (s pat rep : String) : String :=
  String.mk (replaceFuel pat.data rep.data s.data.length s.data)

/-- Python `value[:n]` for the record fields the renderer truncates.  In every
run this development reasons about, these fields hold strings; for a
non-string value (where the source raises `TypeError` for numbers, booleans,
`None` and dicts, or slices an actual list) the model renders `str()` of the
value truncated. -/
def pySliceStr (j : Json) (n : Nat) : String :=
  match j with
  | .str s => s.take n
  | j => (Json.pyStr j).take n

/-- The status marker dict of source lines 102-106, with the `❓` default. -/
def statusEmoji : Json → String
  | .str "in_progress" => "🔄"
  | .str "blocked" => "🚫"
  | .str "waiting" => "⏳"
  | _ => "❓"

/-- The duration cell of an Active Work row (source lines 93-99).  A clock
sample is consumed exactly when `started` is truthy and parses; a falsy,
missing, non-string or unparsable `started` renders the placeholder. -/
def activeDuration (env : Env) (c : Clock) (i : Nat) (r : AgentRec) :
    String × Nat :=
  match lookupField r "started" with
  | none => ("-", i)
  | some v =>
    if v.truthy then
      match v with
      | .str s =>
        match env.parseTime (pyReplace s "Z" "+00:00") with
        | some t => (dropDot (pyTimedeltaStr (c.sample i - t)), i + 1)
        | none => ("-", i)
      | _ => ("-", i)
    else ("-", i)

/-- One Active Work row (source lines 91-113). -/
def activeRow (env : Env) (c : Clock) (i : Nat) (r : AgentRec) : String × Nat :=
  let d := activeDuration env c i r
  ("| " ++ (pyGet r "agentId" (.str "unknown")).pyStr ++ " | "
    ++ statusEmoji (pyGet r "status" (.str "idle")) ++ " "
    ++ (pyGet r "status" (.str "unknown")).pyStr ++ " | "
    ++ pySliceStr (pyGet r "task" (.str "-")) 30 ++ " | `"
    ++ pySliceStr (pyGet r "branch" (.str "-")) 20 ++ "` | "
    ++ pySliceStr (pyGet r "started" (.str "-")) 16 ++ " | "
    ++ d.1 ++ " |\n", d.2)

/-- All Active Work rows, threading the clock sample index. -/
def activeRows (env : Env) (c : Clock) : List AgentRec → Nat → String × Nat
  | [], i => ("", i)
  | r :: rs, i =>
    let row := activeRow env c i r
    let rest := activeRows env c rs row.2
    (row.1 ++ rest.1, rest.2)

/-- The Active Work section heading and table header (source lines 87-89). -/
def activeHeader : String :=
  "## 🚀 Active Work\n\n"
  ++ "| Agent | Status | Task | Branch | Started | Duration |\n"
  ++ "|-------|--------|------|--------|---------|----------|\n"

/-- The Active Work section (source lines 84-113), omitted when empty. -/
def activeSection (env : Env) (c : Clock) (l : List AgentRec) (i : Nat) :
    String × Nat :=
  if l.isEmpty then ("", i)
  else
    let rows := activeRows env c l i
    (activeHeader ++ rows.1, rows.2)

/-- One Blocked Agents row (source lines 122-126). -/
def blockedRow (r : AgentRec) : String :=
  "| " ++ (pyGet r "agentId" (.str "unknown")).pyStr ++ " | "
  ++ (pyGet r "blockedBy" (.str "-")).pyStr ++ " | "
  ++ pySliceStr (pyGet r "reason" (.str "-")) 40 ++ " | "
  ++ (pyGet r "blockedDuration" (.str "-")).pyStr ++ " |\n"

/-- The Blocked Agents section (source lines 115-126), omitted when empty. -/
def blockedSection (l : List AgentRec) : String :=
  if l.isEmpty then ""
  else "\n## 🚫 Blocked Agents\n\n"
    ++ "| Agent | Blocked By | Reason | Duration |\n"
    ++ "|-------|------------|--------|----------|\n"
    ++ String.join (l.map blockedRow)

/-- One Idle Agents row (source lines 135-138). -/
def idleRow (r : AgentRec) : String :=
  "| " ++ (pyGet r "agentId" (.str "unknown")).pyStr ++ " | "
  ++ pySliceStr (pyGet r "lastUpdate" (.str "-")) 16 ++ " | "
  ++ (pyGet r "readyFor" (.str "Any task")).pyStr ++ " |\n"

/-- The Idle Agents section (source lines 128-138), omitted when empty. -/
def idleSection (l : List AgentRec) : String :=
  if l.isEmpty then ""
  else "\n## 💤 Idle Agents\n\n"
    ++ "| Agent | Last Active | Ready For |\n"
    ++ "|-------|-------------|----------|\n"
    ++ String.join (l.map idleRow)

/-- One Recent Completions row (source lines 148-152). -/
def completedRow (r : AgentRec) : String :=
  "| " ++ (pyGet r "agentId" (.str "unknown")).pyStr ++ " | "
  ++ pySliceStr (pyGet r "task" (.str "-")) 30 ++ " | "
  ++ pySliceStr (pyGet r "completed" (.str "-")) 16 ++ " | "
  ++ (pyGet r "duration" (.str "-")).pyStr ++ " |\n"

/-- The rows of the Recent Completions table: only `completed[:5]` is shown
(source lines 147-148). -/
def completedRows (l : List AgentRec) : List String :=
  (l.take 5).map completedRow

/-- The Recent Completions section (source lines 140-152), omitted when
empty. -/
def completedSection (l : List AgentRec) : String :=
  if l.isEmpty then ""
  else "\n## ✅ Recent Completions\n\n"
    ++ "| Agent | Task | Completed | Duration |\n"
    ++ "|-------|------|-----------|----------|\n"
    ++ String.join (completedRows l)

/-- The Statistics section (source lines 154-159); the completed count is the
length of the full completed filter, not of the truncated table. -/
def statsSection (a b i c : Nat) : String :=
  "\n## 📊 Statistics\n\n"
  ++ "- **Active:** " ++ toString a ++ "\n"
  ++ "- **Blocked:** " ++ toString b ++ "\n"
  ++ "- **Idle:** " ++ toString i ++ "\n"
  ++ "- **Completed (recent):** " ++ toString c ++ "\n"

/-- The per-lane counters, in the order of the Python dict literal of source
line 166. -/
structure LaneStats where
  active : Nat
  idle : Nat
  blocked : Nat
deriving DecidableEq, Repr

/-- One record's contribution to its lane (source lines 168-174): `in_progress`
and `waiting` are active, `blocked` is blocked, everything else is idle. -/
def bumpLane (status : Json) (s : LaneStats) : LaneStats :=
  if status = .str "in_progress" ∨ status = .str "waiting" then
    ⟨s.active + 1, s.idle, s.blocked⟩
  else if status = .str "blocked" then ⟨s.active, s.idle, s.blocked + 1⟩
  else ⟨s.active, s.idle + 1, s.blocked⟩

/-- Update the insertion ordered lane dict with one record. -/
def bumpAssoc (lane status : Json) :
    List (Json × LaneStats) → List (Json × LaneStats)
  | [] => [(lane, bumpLane status ⟨0, 0, 0⟩)]
  | (k, v) :: rest =>
    if k = lane then (k, bumpLane status v) :: rest
    else (k, v) :: bumpAssoc lane status rest

/-- `agent.get('lane', 'unknown')` (source line 164). -/
def laneOf (r : AgentRec) : Json := pyGet r "lane" (.str "unknown")

/-- `agent.get('status', 'idle')` (source line 168). -/
def statusD (r : AgentRec) : Json := pyGet r "status" (.str "idle")

/-- The lane grouping loop of source lines 162-174. -/
def laneFold : List AgentRec → List (Json × LaneStats) → List (Json × LaneStats)
  | [], acc => acc
  | r :: rs, acc => laneFold rs (bumpAssoc (laneOf r) (statusD r) acc)

/-- One Lane Utilization row (source lines 181-184); the total is the sum of
the three counters. -/
def laneRow (e : Json × LaneStats) : String :=
  "| " ++ e.1.pyStr ++ " | " ++ toString e.2.active ++ " | "
  ++ toString e.2.blocked ++ " | " ++ toString e.2.idle ++ " | "
  ++ toString (e.2.active + e.2.blocked + e.2.idle) ++ " |\n"

/-- The Lane Utilization section (source lines 161-184): rows in ascending
lane order via `sorted(lanes.items())`, omitted when the lane dict is empty. -/
def laneSection (recs : List AgentRec) : String :=
  let lanes := laneFold recs []
  if lanes.isEmpty then ""
  else "\n### Lane Utilization\n\n"
    ++ "| Lane | Active | Blocked | Idle | Total |\n"
    ++ "|------|--------|---------|------|-------|\n"
    ++ String.join ((sortByKey (fun e => jsonOrd e.1) pairLe lanes).map laneRow)

/-- `a.get('status')` with no default, as used by the section filters. -/
def statusOpt (r : AgentRec) : Option Json := lookupField r "status"

/-- The active filter (source line 85): status not in `['idle', 'completed']`;
a missing status is `None`, which is not in the list. -/
def activeOf (recs : List AgentRec) : List AgentRec :=
  recs.filter fun r =>
    decide (statusOpt r ≠ some (.str "idle")) && decide (statusOpt r ≠ some (.str "completed"))

/-- The blocked filter (source line 116). -/
def blockedOf (recs : List AgentRec) : List AgentRec :=
  recs.filter fun r => decide (statusOpt r = some (.str "blocked"))

/-- The idle filter (source line 129). -/
def idleOf (recs : List AgentRec) : List AgentRec :=
  recs.filter fun r => decide (statusOpt r = some (.str "idle"))

/-- The completed filter (source line 141). -/
def completedOf (recs : List AgentRec) : List AgentRec :=
  recs.filter fun r => decide (statusOpt r = some (.str "completed"))

/-- The board title and header lines (source lines 80-82); `t` is the clock
sample rendered as the `Last Updated` timestamp. -/
def boardHeader (env : Env) (t : Int) (n : Nat) : String :=
  "# 🤖 Agent Status Board\n"
  ++ "**Last Updated:** " ++ env.formatTs t ++ "\n"
  ++ "**Total Agents:** " ++ toString n ++ "\n\n"

/-- The Renderer stage (source lines 79-184): the content written to
`AGENT-STATUS.md` for the sorted records, starting from clock sample `i`. -/
def renderPhase (env : Env) (c : Clock) (i : Nat) (recs : List AgentRec) : String :=
  boardHeader env (c.sample i) recs.length
  ++ (activeSection env c (activeOf recs) (i + 1)).1
  ++ blockedSection (blockedOf recs)
  ++ idleSection (idleOf recs)
  ++ completedSection (completedOf recs)
  ++ statsSection (activeOf recs).length (blockedOf recs).length
      (idleOf recs).length (completedOf recs).length
  ++ laneSection recs

/-- The final console summary (source lines 186-189). -/
def successLines (recs : List AgentRec) : List String :=
  ["[SUCCESS] Status board updated: AGENT-STATUS.md",
   "   - " ++ toString (activeOf recs).length ++ " active agents",
   "   - " ++ toString (blockedOf recs).length ++ " blocked agents",
   "   - " ++ toString (idleOf recs).length ++ " idle agents"]

/-- Outcome of one successful `aggregate_status()` call: the directory state,
the content written to `AGENT-STATUS.md`, and the console lines. -/
structure RunResult where
  fs : FS
  board : String
  console : List String
deriving DecidableEq

/-- `aggregate_status()` (source lines 31-189).  An error carries the raised
message, the index of the next unconsumed clock sample, and the directory
state at the raise. -/
def aggregate_status (env : Env) (c : Clock) (fs : FS) :
    Except (String × Nat × FS) RunResult :=
  match (loadPhase env c fs).1 with
  | .error e => .error (e, (loadPhase env c fs).2.2, (loadPhase env c fs).2.1)
  | .ok (agents, con) =>
    match sortPhase agents with
    | .error e => .error (e, (loadPhase env c fs).2.2, (loadPhase env c fs).2.1)
    | .ok recs =>
      .ok ⟨(loadPhase env c fs).2.1,
           renderPhase env c (loadPhase env c fs).2.2 recs,
           con ++ successLines recs⟩

/-- The degraded error board written by the top level handler (source lines
197-200). -/
def errorBoard (env : Env) (e : String) (t : Int) : String :=
  "# 🤖 Agent Status Board\n"
  ++ "**Error:** Could not aggregate status - " ++ e ++ "\n"
  ++ "**Last Attempt:** " ++ env.formatTs t ++ "\n"

/-- Outcome of the whole process: directory state, final `AGENT-STATUS.md`
content, exit code and console lines. -/
structure MainResult where
  fs : FS
  board : String
  exitCode : Nat
  console : List String
deriving DecidableEq

/-- The `__main__` block (source lines 191-201): one call to
`aggregate_status`, a single top level catch writing the degraded board and
exiting 1, exit 0 otherwise, no retries. -/
def mainRun (env : Env) (c : Clock) (fs : FS) : MainResult :=
  match aggregate_status env c fs with
  | .ok r => ⟨r.fs, r.board, 0, r.console⟩
  | .error (e, i, fs2) =>
    ⟨fs2, errorBoard env e (c.sample i), 1, ["Error aggregating status: " ++ e]⟩

theorem charListLe_refl : ∀ l : List Char, charListLe l l = true
  | [] => rfl
  | c :: cs => by
    simp only [charListLe, lt_irrefl, if_false]
    exact charListLe_refl cs

theorem charListLe_total : ∀ a b : List Char, charListLe a b = true ∨ charListLe b a = true
  | [], _ => .inl rfl
  | _ :: _, [] => .inr rfl
  | c :: cs, d :: ds => by
    simp only [charListLe]
    by_cases h1 : c.toNat < d.toNat
    · left
      rw [if_pos h1]
    · by_cases h2 : d.toNat < c.toNat
      · right
        rw [if_pos h2]
      · rw [if_neg h1, if_neg h2, if_neg h2, if_neg h1]
        exact charListLe_total cs ds

theorem charListLe_trans :
    ∀ a b c : List Char, charListLe a b = true → charListLe b c = true →
      charListLe a c = true
  | [], _, _ => fun _ _ => rfl
  | _ :: _, [], _ => fun h _ => by simp [charListLe] at h
  | _ :: _, _ :: _, [] => fun _ h => by simp [charListLe] at h
  | a :: as, b :: bs, c :: cs => fun h1 h2 => by
    rw [charListLe] at h1 h2 ⊢
    by_cases hab : a.toNat < b.toNat
    · by_cases hbc : b.toNat < c.toNat
      · rw [if_pos (by omega)]
      · by_cases hcb : c.toNat < b.toNat
        · rw [if_neg hbc, if_pos hcb] at h2
          exact absurd h2 (by simp)
        · rw [if_pos (by omega)]
    · by_cases hba : b.toNat < a.toNat
      · rw [if_neg hab, if_pos hba] at h1
        exact absurd h1 (by simp)
      · rw [if_neg hab, if_neg hba] at h1
        by_cases hbc : b.toNat < c.toNat
        · rw [if_pos (by omega)]
        · by_cases hcb : c.toNat < b.toNat
          · rw [if_neg hbc, if_pos hcb] at h2
            exact absurd h2 (by simp)
          · rw [if_neg hbc, if_neg hcb] at h2
            rw [if_neg (by omega), if_neg (by omega)]
            exact charListLe_trans as bs cs h1 h2

theorem strLe_refl (s : String) : strLe s s = true := charListLe_refl s.data

theorem strLe_total (a b : String) : strLe a b = true ∨ strLe b a = true :=
  charListLe_total a.data b.data

theorem strLe_trans {a b c : String} (h1 : strLe a b = true) (h2 : strLe b c = true) :
    strLe a c = true :=
  charListLe_trans a.data b.data c.data h1 h2

theorem pairLe_refl (a : Nat × String) : pairLe a a = true := by
  simp [pairLe, strLe_refl]

theorem pairLe_total (a b : Nat × String) : pairLe a b = true ∨ pairLe b a = true := by
  unfold pairLe
  rcases Nat.lt_trichotomy a.1 b.1 with h | h | h
  · left
    simp [h]
  · rcases strLe_total a.2 b.2 with hs | hs
    · left
      simp [h, hs]
    · right
      simp [h.symm, hs]
  · right
    simp [h]

theorem pairLe_trans {a b c : Nat × String} (h1 : pairLe a b = true)
    (h2 : pairLe b c = true) : pairLe a c = true := by
  unfold pairLe at h1 h2 ⊢
  simp only [Bool.or_eq_true, Bool.and_eq_true, decide_eq_true_eq] at h1 h2 ⊢
  rcases h1 with h1 | ⟨h1e, h1s⟩ <;> rcases h2 with h2 | ⟨h2e, h2s⟩
  · exact .inl (h1.trans h2)
  · exact .inl (h2e ▸ h1)
  · exact .inl (h1e ▸ h2)
  · exact .inr ⟨h1e.trans h2e, strLe_trans h1s h2s⟩

theorem keyLe_refl (a : Nat × Nat × String) : keyLe a a = true := by
  simp [keyLe, pairLe_refl]

theorem keyLe_total (a b : Nat × Nat × String) : keyLe a b = true ∨ keyLe b a = true := by
  unfold keyLe
  rcases Nat.lt_trichotomy a.1 b.1 with h | h | h
  · left
    simp [h]
  · rcases pairLe_total a.2 b.2 with hs | hs
    · left
      simp [h, hs]
    · right
      simp [h.symm, hs]
  · right
    simp [h]

theorem keyLe_trans {a b c : Nat × Nat × String} (h1 : keyLe a b = true)
    (h2 : keyLe b c = true) : keyLe a c = true := by
  unfold keyLe at h1 h2 ⊢
  simp only [Bool.or_eq_true, Bool.and_eq_true, decide_eq_true_eq] at h1 h2 ⊢
  rcases h1 with h1 | ⟨h1e, h1s⟩ <;> rcases h2 with h2 | ⟨h2e, h2s⟩
  · exact .inl (h1.trans h2)
  · exact .inl (h2e ▸ h1)
  · exact .inl (h1e ▸ h2)
  · exact .inr ⟨h1e.trans h2e, pairLe_trans h1s h2s⟩

theorem mem_insertKey {α κ : Type} (key : α → κ) (kle : κ → κ → Bool) (a x : α) :
    ∀ l : List α, x ∈ insertKey key kle a l ↔ x = a ∨ x ∈ l
  | [] => by simp [insertKey]
  | b :: l => by
    unfold insertKey
    by_cases h : kle (key a) (key b) = true
    · rw [if_pos h]
      simp
    · rw [if_neg h]
      simp only [List.mem_cons, mem_insertKey key kle a x l]
      tauto

theorem pairwise_insertKey {α κ : Type} (key : α → κ) (kle : κ → κ → Bool)
    (htot : ∀ k1 k2, kle k1 k2 = true ∨ kle k2 k1 = true)
    (htrans : ∀ k1 k2 k3, kle k1 k2 = true → kle k2 k3 = true → kle k1 k3 = true)
    (a : α) :
    ∀ l : List α, l.Pairwise (fun x y => kle (key x) (key y) = true) →
      (insertKey key kle a l).Pairwise (fun x y => kle (key x) (key y) = true)
  | [], _ => by simp [insertKey]
  | b :: l, hl => by
    rw [List.pairwise_cons] at hl
    obtain ⟨hb, hl⟩ := hl
    unfold insertKey
    by_cases h : kle (key a) (key b) = true
    · rw [if_pos h, List.pairwise_cons]
      refine ⟨?_, List.pairwise_cons.mpr ⟨hb, hl⟩⟩
      intro x hx
      rcases List.mem_cons.mp hx with rfl | hx
      · exact h
      · exact htrans _ _ _ h (hb x hx)
    · rw [if_neg h, List.pairwise_cons]
      refine ⟨?_, pairwise_insertKey key kle htot htrans a l hl⟩
      intro x hx
      rcases (mem_insertKey key kle a x l).mp hx with rfl | hx
      · rcases htot (key x) (key b) with hc | hc
        · exact absurd hc h
        · exact hc
      · exact hb x hx

theorem pairwise_sortByKey {α κ : Type} (key : α → κ) (kle : κ → κ → Bool)
    (htot : ∀ k1 k2, kle k1 k2 = true ∨ kle k2 k1 = true)
    (htrans : ∀ k1 k2 k3, kle k1 k2 = true → kle k2 k3 = true → kle k1 k3 = true) :
    ∀ l : List α,
      (sortByKey key kle l).Pairwise (fun x y => kle (key x) (key y) = true)
  | [] => by simp [sortByKey]
  | a :: l => by
    unfold sortByKey
    exact pairwise_insertKey key kle htot htrans a _
      (pairwise_sortByKey key kle htot htrans l)

theorem filter_insertKey {α κ : Type} [DecidableEq κ] (key : α → κ)
    (kle : κ → κ → Bool) (hrefl : ∀ k0, kle k0 k0 = true) (a : α) (k : κ) :
    ∀ l : List α,
      (insertKey key kle a l).filter (fun x => decide (key x = k))
        = if key a = k then a :: l.filter (fun x => decide (key x = k))
          else l.filter (fun x => decide (key x = k))
  | [] => by
    by_cases h : key a = k <;> simp [insertKey, h]
  | b :: l => by
    unfold insertKey
    by_cases hc : kle (key a) (key b) = true
    · rw [if_pos hc]
      by_cases h : key a = k <;> simp [List.filter_cons, h]
    · rw [if_neg hc]
      by_cases hbk : key b = k
      · by_cases hak : key a = k
        · exfalso
          apply hc
          have he : key a = key b := by rw [hak, hbk]
          rw [he]
          exact hrefl _
        · simp [List.filter_cons, hbk, hak,
            filter_insertKey key kle hrefl a k l]
      · simp [List.filter_cons, hbk, filter_insertKey key kle hrefl a k l]

theorem filter_sortByKey {α κ : Type} [DecidableEq κ] (key : α → κ)
    (kle : κ → κ → Bool) (hrefl : ∀ k0, kle k0 k0 = true) (k : κ) :
    ∀ l : List α,
      (sortByKey key kle l).filter (fun x => decide (key x = k))
        = l.filter (fun x => decide (key x = k))
  | [] => rfl
  | a :: l => by
    unfold sortByKey
    rw [filter_insertKey key kle hrefl, filter_sortByKey key kle hrefl k l,
      List.filter_cons]
    by_cases h : key a = k <;> simp [h]

theorem mem_sortByKey {α κ : Type} (key : α → κ) (kle : κ → κ → Bool) (x : α) :
    ∀ l : List α, x ∈ sortByKey key kle l ↔ x ∈ l
  | [] => Iff.rfl
  | a :: l => by
    unfold sortByKey
    rw [mem_insertKey]
    simp [mem_sortByKey key kle x l]

/-- The rank the source assigns a record: the status defaults to `idle` first
(source line 74), so a missing status ranks 3, not 5. -/
def recRank (r : AgentRec) : Nat := priorityRank (pyGet r "status" (.str "idle"))

/-- The tie-breaking id key of a record, `a.get('agentId', 'unknown')`. -/
def recId (r : AgentRec) : Json := pyGet r "agentId" (.str "unknown")

/-- The string content of the id key, for records whose id key is a string. -/
def recIdStr (r : AgentRec) : String :=
  match recId r with
  | .str s => s
  | _ => ""

/-- Modelled from the claim under check, not from the source: the rank mapping
the specification describes, which sends a missing status to rank 5 exactly
like an unrecognized one. -/
def claimRank (r : AgentRec) : Nat :=
  match lookupField r "status" with
  | some (.str "in_progress") => 0
  | some (.str "blocked") => 1
  | some (.str "waiting") => 2
  | some (.str "idle") => 3
  | some (.str "completed") => 4
  | some _ => 5
  | none => 5

/-- A record with no status field at all; its id is "b". -/
def recNoStatus : AgentRec := [("agentId", Json.str "b")]

/-- A completed record with id "a". -/
def recCompleted : AgentRec := [("agentId", Json.str "a"), ("status", Json.str "completed")]

theorem keyLe_str_iff (ra rb : Nat) (sa sb : String) :
    keyLe (ra, 0, sa) (rb, 0, sb) = true
      ↔ ra < rb ∨ (ra = rb ∧ strLe sa sb = true) := by
  simp [keyLe, pairLe]

theorem sortKey_eq_of_strId {r : AgentRec} {s : String} (h : recId r = Json.str s) :
    sortKey r = (recRank r, 0, s) := by
  unfold recId at h
  unfold sortKey recRank
  rw [h]
  rfl

theorem recIdStr_eq_of_strId {r : AgentRec} {s : String} (h : recId r = Json.str s) :
    recIdStr r = s := by
  unfold recIdStr
  rw [h]

/-- C1, counterexample.  The claim maps a MISSING status to rank 5, after
completed records; the source first defaults a missing status to `idle`
(rank 3), so a record without a status sorts BEFORE a completed record even
when the claimed rank ordering demands the opposite: on
`[recNoStatus, recCompleted]` the sorted output keeps `recNoStatus` (claim
rank 5, id "b") ahead of `recCompleted` (claim rank 4, id "a"), which is not
ordered by the claimed key. -/
theorem c1_counterexample :
    sortByKey sortKey keyLe [recNoStatus, recCompleted] = [recNoStatus, recCompleted]
    ∧ recRank recNoStatus = 3
    ∧ claimRank recNoStatus = 5
    ∧ claimRank recCompleted = 4
    ∧ ¬ (sortByKey sortKey keyLe [recNoStatus, recCompleted]).Pairwise
        (fun a b => claimRank a < claimRank b
          ∨ (claimRank a = claimRank b ∧ strLe (recIdStr a) (recIdStr b) = true)) := by
  decide

/-- C1, amended: the Classifier/Sorter stable-sorts ascending by the pair
(priority rank, agentId) where the rank mapping is in_progress=0, blocked=1,
waiting=2, idle=3, completed=4, a MISSING status defaults to `idle` and hence
ranks 3, and only an unrecognized PRESENT status ranks 5; a record missing
`agentId` compares as the literal string "unknown", and records with equal
(rank, agentId) keys keep their relative input order (stated as: every fibre
of the sort key is preserved by sorting). -/
theorem c1_amended_stable_sort (l : List AgentRec)
    (h : ∀ r ∈ l, ∃ s, recId r = Json.str s) :
    (sortByKey sortKey keyLe l).Pairwise (fun a b =>
        recRank a < recRank b
        ∨ (recRank a = recRank b ∧ strLe (recIdStr a) (recIdStr b) = true))
    ∧ ∀ k, (sortByKey sortKey keyLe l).filter (fun r => decide (sortKey r = k))
        = l.filter (fun r => decide (sortKey r = k)) := by
  constructor
  · have hp := pairwise_sortByKey sortKey keyLe keyLe_total
      (fun k1 k2 k3 h1 h2 => keyLe_trans h1 h2) l
    refine List.Pairwise.imp_of_mem ?_ hp
    intro a b ha hb hk
    obtain ⟨sa, hsa⟩ := h a ((mem_sortByKey sortKey keyLe a l).mp ha)
    obtain ⟨sb, hsb⟩ := h b ((mem_sortByKey sortKey keyLe b l).mp hb)
    rw [sortKey_eq_of_strId hsa, sortKey_eq_of_strId hsb, keyLe_str_iff] at hk
    rw [recIdStr_eq_of_strId hsa, recIdStr_eq_of_strId hsb]
    exact hk
  · intro k
    exact filter_sortByKey sortKey keyLe keyLe_refl k l

/-- Witness for C1 (amended) at a concrete list: two equal-key records keep
their input order and the output is rank ordered. -/
theorem c1_amended_stable_sort_witness :
    (sortByKey sortKey keyLe
        [recCompleted, recNoStatus, [("agentId", Json.str "a")]]).Pairwise
      (fun a b => recRank a < recRank b
        ∨ (recRank a = recRank b ∧ strLe (recIdStr a) (recIdStr b) = true))
    ∧ (sortByKey sortKey keyLe
          [recCompleted, recNoStatus, [("agentId", Json.str "a")]]).filter
        (fun r => decide (sortKey r = (3, 0, "a")))
      = [recCompleted, recNoStatus, [("agentId", Json.str "a")]].filter
          (fun r => decide (sortKey r = (3, 0, "a"))) :=
  ⟨(c1_amended_stable_sort [recCompleted, recNoStatus, [("agentId", Json.str "a")]]
      (by
        intro r hr
        simp only [List.mem_cons, List.not_mem_nil, or_false] at hr
        rcases hr with rfl | rfl | rfl
        · exact ⟨"a", rfl⟩
        · exact ⟨"b", rfl⟩
        · exact ⟨"a", rfl⟩)).1,
   (c1_amended_stable_sort [recCompleted, recNoStatus, [("agentId", Json.str "a")]]
      (by
        intro r hr
        simp only [List.mem_cons, List.not_mem_nil, or_false] at hr
        rcases hr with rfl | rfl | rfl
        · exact ⟨"a", rfl⟩
        · exact ⟨"b", rfl⟩
        · exact ⟨"a", rfl⟩)).2 (3, 0, "a")⟩

/-- C2: if the status directory is absent or has no record files, one run
leaves the directory existing with exactly one placeholder file, whose record
has agentId "system" and status "idle", and the rendered board is the header
with total count 1 followed by only the idle section (holding the
placeholder), the statistics and the lane table: the active, blocked and
completed sections contribute nothing. -/
theorem c2_bootstrap_placeholder (env : Env) (c : Clock) (fs : FS)
    (h : fs.dirExists = false ∨ fs.files = []) :
    ∃ res, aggregate_status env c fs = .ok res
      ∧ res.fs = ⟨true, [("agent-status/system.json",
            .ok (create_system_status env (c.sample 0)))]⟩
      ∧ pyGet (systemFields env (c.sample 0)) "agentId" Json.null = Json.str "system"
      ∧ pyGet (systemFields env (c.sample 0)) "status" Json.null = Json.str "idle"
      ∧ res.board = boardHeader env (c.sample 1) 1
          ++ (idleSection [systemFields env (c.sample 0)]
          ++ (statsSection 0 0 1 0
          ++ laneSection [systemFields env (c.sample 0)]))
      ∧ idleSection [systemFields env (c.sample 0)]
          = "\n## 💤 Idle Agents\n\n| Agent | Last Active | Ready For |\n|-------|-------------|----------|\n"
            ++ ("| system | " ++ ((env.formatTs (c.sample 0)).take 16 ++ " | Any task |\n"))
      ∧ statsSection 0 0 1 0
          = "\n## 📊 Statistics\n\n- **Active:** 0\n- **Blocked:** 0\n- **Idle:** 1\n- **Completed (recent):** 0\n"
      ∧ laneSection [systemFields env (c.sample 0)]
          = "\n### Lane Utilization\n\n| Lane | Active | Blocked | Idle | Total |\n|------|--------|---------|------|-------|\n| unknown | 0 | 0 | 1 | 1 |\n" := by
  have hidle : ∀ t : Int, idleSection [systemFields env t]
      = "\n## 💤 Idle Agents\n\n| Agent | Last Active | Ready For |\n|-------|-------------|----------|\n"
        ++ ("| system | " ++ ((env.formatTs t).take 16 ++ " | Any task |\n")) := by
    intro t
    simp [idleSection, idleRow, systemFields, pyGet, lookupField, pySliceStr,
      Json.pyStr, String.join, String.append_assoc]
  have hstats : statsSection 0 0 1 0
      = "\n## 📊 Statistics\n\n- **Active:** 0\n- **Blocked:** 0\n- **Idle:** 1\n- **Completed (recent):** 0\n" := by
    decide
  have hlane : ∀ t : Int, laneSection [systemFields env t]
      = "\n### Lane Utilization\n\n| Lane | Active | Blocked | Idle | Total |\n|------|--------|---------|------|-------|\n| unknown | 0 | 0 | 1 | 1 |\n" := by
    intro t
    simp [laneSection, laneFold, bumpAssoc, laneOf, statusD, pyGet, lookupField,
      systemFields, bumpLane, sortByKey, insertKey, jsonOrd, laneRow, Json.pyStr,
      String.join, String.append_assoc]
    decide
  have hrender : renderPhase env c 1 [systemFields env (c.sample 0)]
      = boardHeader env (c.sample 1) 1
        ++ (idleSection [systemFields env (c.sample 0)]
        ++ (statsSection 0 0 1 0
        ++ laneSection [systemFields env (c.sample 0)])) := by
    simp [renderPhase, activeOf, blockedOf, idleOf, completedOf, statusOpt,
      systemFields, lookupField, activeSection, blockedSection, completedSection,
      String.append_assoc]
  obtain ⟨de, files⟩ := fs
  rcases h with h | h
  · simp only at h
    subst h
    exact ⟨_, rfl, rfl, rfl, rfl, hrender, hidle _, hstats, hlane _⟩
  · simp only at h
    subst h
    cases de
    · exact ⟨_, rfl, rfl, rfl, rfl, hrender, hidle _, hstats, hlane _⟩
    · exact ⟨_, rfl, rfl, rfl, rfl, hrender, hidle _, hstats, hlane _⟩

/-- A concrete environment with a parser that never succeeds and a numeral
timestamp rendering, for witnesses. -/
def envW : Env := ⟨fun _ => none, fun t => toString t⟩

/-- A concrete constant clock, for witnesses. -/
def clkW : Clock := ⟨fun _ => 0⟩

/-- Witness for C2 at a missing directory with a concrete environment. -/
theorem c2_bootstrap_placeholder_witness :
    (∃ res, aggregate_status envW clkW ⟨false, []⟩ = .ok res
      ∧ res.fs = ⟨true, [("agent-status/system.json",
            .ok (create_system_status envW (clkW.sample 0)))]⟩)
    ∧ pyGet (systemFields envW (clkW.sample 0)) "agentId" Json.null = Json.str "system"
    ∧ pyGet (systemFields envW (clkW.sample 0)) "status" Json.null = Json.str "idle" := by
  obtain ⟨res, hok, hfs, hid, hst, _⟩ :=
    c2_bootstrap_placeholder envW clkW ⟨false, []⟩ (Or.inl rfl)
  exact ⟨⟨res, hok, hfs⟩, hid, hst⟩

theorem loadPhase_files (env : Env) (c : Clock) (files : List (String × FileRead))
    (hne : files ≠ []) :
    loadPhase env c ⟨true, files⟩ = (loadLoop files, ⟨true, files⟩, 0) := by
  unfold loadPhase
  rw [if_neg (by simp), if_neg (by simpa using hne)]

/-- C3, evaluated at the failing input.  `safe_json_load` catches only
`(json.JSONDecodeError, IOError)` (source line 17), so a record file whose
read raises any other exception — file bytes that are not valid UTF-8
(`UnicodeDecodeError`), or deeply nested content (`RecursionError`) — aborts
the whole aggregation even though a valid sibling file is present: the
degraded error board replaces the output and the process exits 1,
contradicting the claim that per-file failure is never fatal.  By contrast a
file raising one of the two caught classes is excluded with a warning naming
the file and its error, and the run succeeds. -/
theorem c3_uncaught_read_error_aborts_run :
    (mainRun envW clkW ⟨true,
        [("good.json", .ok (Json.obj [("agentId", Json.str "a")])),
         ("bad.json", .fatal "UnicodeDecodeError: utf-8 codec cannot decode byte 0xff in position 0")]⟩).exitCode
      = 1
    ∧ (mainRun envW clkW ⟨true,
          [("good.json", .ok (Json.obj [("agentId", Json.str "a")])),
           ("bad.json", .fatal "UnicodeDecodeError: utf-8 codec cannot decode byte 0xff in position 0")]⟩).board
        = errorBoard envW
            "UnicodeDecodeError: utf-8 codec cannot decode byte 0xff in position 0"
            (clkW.sample 0)
    ∧ (mainRun envW clkW ⟨true,
          [("good.json", .ok (Json.obj [("agentId", Json.str "a")])),
           ("caught.json", .error "Expecting value: line 1 column 1 (char 0)")]⟩).exitCode
      = 0
    ∧ ("Warning: Could not read caught.json: Expecting value: line 1 column 1 (char 0)")
        ∈ (mainRun envW clkW ⟨true,
            [("good.json", .ok (Json.obj [("agentId", Json.str "a")])),
             ("caught.json", .error "Expecting value: line 1 column 1 (char 0)")]⟩).console
    ∧ loadRecords
          [("good.json", FileRead.ok (Json.obj [("agentId", Json.str "a")])),
           ("caught.json", FileRead.error "Expecting value: line 1 column 1 (char 0)")]
        = loadRecords [("good.json", FileRead.ok (Json.obj [("agentId", Json.str "a")]))] := by
  refine ⟨by decide, by decide, by decide, by decide, by decide⟩

/-- C4: the process exits 0 exactly when `aggregate_status` returns (its
result is published unchanged, warnings tolerated); any raise inside
aggregation reaches the single top level handler, which writes the minimal
error document (title line, error message line, attempt timestamp line) in
place of the board and exits 1 — there is no second attempt, `mainRun` calls
`aggregate_status` once. -/
theorem c4_exit_codes_and_error_document (env : Env) (c : Clock) (fs : FS) :
    (∀ res, aggregate_status env c fs = .ok res →
        mainRun env c fs = ⟨res.fs, res.board, 0, res.console⟩)
    ∧ (∀ e i fs2, aggregate_status env c fs = .error (e, i, fs2) →
        mainRun env c fs
          = ⟨fs2,
             "# 🤖 Agent Status Board\n"
               ++ "**Error:** Could not aggregate status - " ++ e ++ "\n"
               ++ "**Last Attempt:** " ++ env.formatTs (c.sample i) ++ "\n",
             1,
             ["Error aggregating status: " ++ e]⟩) := by
  constructor
  · intro res h
    unfold mainRun
    rw [h]
  · intro e i fs2 h
    unfold mainRun
    rw [h]
    rfl

set_option maxRecDepth 10000 in
/-- Witness for C4: a run over one valid record file exits 0, and a run over a
file holding a truthy non-dict value exits 1 with the degraded board. -/
theorem c4_exit_codes_and_error_document_witness :
    (mainRun envW clkW
        ⟨true, [("a.json", FileRead.ok (Json.obj [("agentId", Json.str "a")]))]⟩).exitCode = 0
    ∧ (mainRun envW clkW ⟨true, [("a.json", FileRead.ok (Json.str "hello"))]⟩).exitCode = 1
    ∧ (mainRun envW clkW ⟨true, [("a.json", FileRead.ok (Json.str "hello"))]⟩).board
        = "# 🤖 Agent Status Board\n"
            ++ "**Error:** Could not aggregate status - "
            ++ "AttributeError: str object has no attribute get" ++ "\n"
            ++ "**Last Attempt:** " ++ envW.formatTs (clkW.sample 0) ++ "\n" := by
  have hok : aggregate_status envW clkW
      ⟨true, [("a.json", FileRead.ok (Json.obj [("agentId", Json.str "a")]))]⟩
      = .ok ⟨⟨true, [("a.json", FileRead.ok (Json.obj [("agentId", Json.str "a")]))]⟩,
             renderPhase envW clkW 0 [[("agentId", Json.str "a")]],
             successLines [[("agentId", Json.str "a")]]⟩ := by decide
  have herr : aggregate_status envW clkW ⟨true, [("a.json", FileRead.ok (Json.str "hello"))]⟩
      = .error ("AttributeError: str object has no attribute get", 0,
          ⟨true, [("a.json", FileRead.ok (Json.str "hello"))]⟩) := by decide
  refine ⟨?_, ?_, ?_⟩
  · rw [(c4_exit_codes_and_error_document envW clkW _).1 _ hok]
  · rw [(c4_exit_codes_and_error_document envW clkW _).2 _ _ _ herr]
  · rw [(c4_exit_codes_and_error_document envW clkW _).2 _ _ _ herr]

/-- Lookup in the lane dict. -/
def assocLookup : List (Json × LaneStats) → Json → Option LaneStats
  | [], _ => none
  | (k, v) :: rest, key => if k = key then some v else assocLookup rest key

/-- Componentwise sum of lane counters. -/
def LaneStats.add (a b : LaneStats) : LaneStats :=
  ⟨a.active + b.active, a.idle + b.idle, a.blocked + b.blocked⟩

/-- The lane counters the specification describes for lane `k`: active records
have status `in_progress` or `waiting`, blocked records have status `blocked`,
idle records have any other (defaulted) status. -/
def laneCounts (recs : List AgentRec) (k : Json) : LaneStats :=
  ⟨recs.countP (fun r => decide (laneOf r = k)
      && (decide (statusD r = Json.str "in_progress")
          || decide (statusD r = Json.str "waiting"))),
   recs.countP (fun r => decide (laneOf r = k)
      && !(decide (statusD r = Json.str "in_progress")
          || decide (statusD r = Json.str "waiting"))
      && !(decide (statusD r = Json.str "blocked"))),
   recs.countP (fun r => decide (laneOf r = k)
      && decide (statusD r = Json.str "blocked"))⟩

/-- Lane dict lookup with the zero default. -/
def laneLookupD (acc : List (Json × LaneStats)) (k : Json) : LaneStats :=
  (assocLookup acc k).getD ⟨0, 0, 0⟩


theorem assocLookup_bumpAssoc (lane st k : Json) :
    ∀ acc, assocLookup (bumpAssoc lane st acc) k
      = if k = lane then some (bumpLane st (laneLookupD acc k)) else assocLookup acc k
  | [] => by
    by_cases h : k = lane
    · subst h
      simp [bumpAssoc, assocLookup, laneLookupD]
    · simp [bumpAssoc, assocLookup, laneLookupD, h,
        show ¬ lane = k from fun hh => h hh.symm]
  | (k0, v0) :: rest => by
    by_cases h0 : k0 = lane
    · subst h0
      by_cases hk : k0 = k
      · subst hk
        simp [bumpAssoc, assocLookup, laneLookupD]
      · simp [bumpAssoc, assocLookup, laneLookupD, hk,
          show ¬ k = k0 from fun hh => hk hh.symm]
    · by_cases hk : k0 = k
      · subst hk
        simp [bumpAssoc, assocLookup, h0, show ¬ k0 = lane from h0]
      · simp [bumpAssoc, assocLookup, laneLookupD, h0, hk,
          assocLookup_bumpAssoc lane st k rest]

theorem laneCounts_nil (k : Json) : laneCounts [] k = ⟨0, 0, 0⟩ := rfl

theorem LaneStats.add_zero (v : LaneStats) : v.add ⟨0, 0, 0⟩ = v := by
  obtain ⟨a, i, b⟩ := v
  simp [LaneStats.add]

theorem LaneStats.zero_add (v : LaneStats) : LaneStats.add ⟨0, 0, 0⟩ v = v := by
  obtain ⟨a, i, b⟩ := v
  simp [LaneStats.add]

theorem laneFold_lookupD (k : Json) :
    ∀ (recs : List AgentRec) (acc : List (Json × LaneStats)),
      laneLookupD (laneFold recs acc) k = (laneLookupD acc k).add (laneCounts recs k)
  | [], acc => by
    rw [laneFold, laneCounts_nil, LaneStats.add_zero]
  | r :: rs, acc => by
    rw [laneFold, laneFold_lookupD k rs]
    have hb : laneLookupD (bumpAssoc (laneOf r) (statusD r) acc) k
        = if k = laneOf r then bumpLane (statusD r) (laneLookupD acc k)
          else laneLookupD acc k := by
      rw [laneLookupD, assocLookup_bumpAssoc]
      by_cases h : k = laneOf r <;> simp [h, laneLookupD]
    rw [hb]
    by_cases hk : k = laneOf r
    · rw [if_pos hk]
      have hlk : laneOf r = k := hk.symm
      obtain ⟨a, i, b⟩ := laneLookupD acc k
      by_cases hip : statusD r = Json.str "in_progress"
      · simp [bumpLane, hip, LaneStats.add, laneCounts, List.countP_cons, hlk,
          LaneStats.mk.injEq]
        omega
      · by_cases hw : statusD r = Json.str "waiting"
        · simp [bumpLane, hip, hw, LaneStats.add, laneCounts, List.countP_cons,
            hlk, LaneStats.mk.injEq]
          omega
        · by_cases hbl : statusD r = Json.str "blocked"
          · simp [bumpLane, hip, hw, hbl, LaneStats.add, laneCounts,
              List.countP_cons, hlk, LaneStats.mk.injEq]
            omega
          · simp [bumpLane, hip, hw, hbl, LaneStats.add, laneCounts,
              List.countP_cons, hlk, LaneStats.mk.injEq]
            omega
    · rw [if_neg hk]
      have hlk : ¬ laneOf r = k := fun hh => hk hh.symm
      simp [laneCounts, List.countP_cons, hlk]

theorem laneFold_lookup_none (k : Json) :
    ∀ (recs : List AgentRec) (acc : List (Json × LaneStats)),
      assocLookup (laneFold recs acc) k = none
        ↔ (assocLookup acc k = none
            ∧ recs.countP (fun r => decide (laneOf r = k)) = 0)
  | [], acc => by
    simp [laneFold]
  | r :: rs, acc => by
    rw [laneFold, laneFold_lookup_none k rs, assocLookup_bumpAssoc]
    by_cases hk : k = laneOf r
    · rw [if_pos hk]
      have hlk : laneOf r = k := hk.symm
      simp [List.countP_cons, hlk]
    · rw [if_neg hk]
      have hlk : ¬ laneOf r = k := fun hh => hk hh.symm
      simp [List.countP_cons, hlk]

theorem laneCounts_total (recs : List AgentRec) (k : Json) :
    (laneCounts recs k).active + (laneCounts recs k).blocked + (laneCounts recs k).idle
      = recs.countP (fun r => decide (laneOf r = k)) := by
  induction recs with
  | nil => rfl
  | cons r rs ih =>
    simp only [laneCounts, List.countP_cons] at ih ⊢
    by_cases hl : laneOf r = k
    · by_cases hip : statusD r = Json.str "in_progress"
      · simp [hl, hip] at ih ⊢
        omega
      · by_cases hw : statusD r = Json.str "waiting"
        · simp [hl, hip, hw] at ih ⊢
          omega
        · by_cases hbl : statusD r = Json.str "blocked"
          · simp [hl, hip, hw, hbl] at ih ⊢
            omega
          · simp [hl, hip, hw, hbl] at ih ⊢
            omega
    · simp [hl] at ih ⊢
      omega

theorem bumpAssoc_ne_nil (lane st : Json) :
    ∀ acc, bumpAssoc lane st acc ≠ []
  | [] => by simp [bumpAssoc]
  | (k0, v0) :: rest => by
    unfold bumpAssoc
    by_cases h : k0 = lane <;> simp [h]

theorem laneFold_eq_nil :
    ∀ (recs : List AgentRec) (acc : List (Json × LaneStats)),
      laneFold recs acc = [] → acc = [] ∧ recs = []
  | [], acc => fun h => ⟨h, rfl⟩
  | r :: rs, acc => fun h => by
    rw [laneFold] at h
    exact absurd (laneFold_eq_nil rs _ h).1
      (bumpAssoc_ne_nil (laneOf r) (statusD r) acc)

/-- C5: the Lane Utilization grouping.  For every lane key `k` the dict entry
exists exactly when some record has that lane, and then counts active =
records with status `in_progress` or `waiting`, blocked = records with status
`blocked`, idle = records with any other (defaulted) status; the three
counters sum to the number of records in the lane (the rendered total);
rendered rows are sorted ascending by lane key; the section is empty exactly
when there are no records; and two records in lane "x" with statuses
`waiting` and `blocked` yield active=1, blocked=1, idle=0, total=2. -/
theorem c5_lane_utilization (recs : List AgentRec) (k : Json) :
    (assocLookup (laneFold recs []) k
        = if recs.countP (fun r => decide (laneOf r = k)) = 0 then none
          else some (laneCounts recs k))
    ∧ (laneCounts recs k).active + (laneCounts recs k).blocked + (laneCounts recs k).idle
        = recs.countP (fun r => decide (laneOf r = k))
    ∧ (sortByKey (fun ee => jsonOrd ee.1) pairLe (laneFold recs [])).Pairwise
        (fun a b => pairLe (jsonOrd a.1) (jsonOrd b.1) = true)
    ∧ (laneSection recs = "" ↔ recs = [])
    ∧ laneFold [[("lane", Json.str "x"), ("status", Json.str "waiting")],
          [("lane", Json.str "x"), ("status", Json.str "blocked")]] []
        = [(Json.str "x", ⟨1, 0, 1⟩)]
    ∧ laneRow (Json.str "x", ⟨1, 0, 1⟩) = "| x | 1 | 1 | 0 | 2 |\n" := by
  refine ⟨?_, laneCounts_total recs k, ?_, ?_, by decide, by decide⟩
  · by_cases h0 : recs.countP (fun r => decide (laneOf r = k)) = 0
    · rw [if_pos h0]
      exact (laneFold_lookup_none k recs []).mpr ⟨rfl, h0⟩
    · rw [if_neg h0]
      have hne : assocLookup (laneFold recs []) k ≠ none := by
        intro hc
        exact h0 ((laneFold_lookup_none k recs []).mp hc).2
      have hD := laneFold_lookupD k recs []
      rw [show laneLookupD [] k = ⟨0, 0, 0⟩ from rfl, LaneStats.zero_add] at hD
      cases hv : assocLookup (laneFold recs []) k with
      | none => exact absurd hv hne
      | some v =>
        rw [laneLookupD, hv] at hD
        simp only [Option.getD_some] at hD
        rw [hD]
  · exact pairwise_sortByKey _ pairLe pairLe_total
      (fun a b cc h1 h2 => pairLe_trans h1 h2) _
  · constructor
    · intro h
      by_contra hrecs
      have hlanes : laneFold recs [] ≠ [] :=
        fun hc => hrecs (laneFold_eq_nil recs [] hc).2
      simp only [laneSection] at h
      rw [if_neg (by simpa using hlanes)] at h
      have hd := congrArg String.data h
      rw [String.data_append] at hd
      rw [show ("" : String).data = [] from rfl] at hd
      have hne2 : ("\n### Lane Utilization\n\n"
          ++ "| Lane | Active | Blocked | Idle | Total |\n"
          ++ "|------|--------|---------|------|-------|\n").data ≠ [] := by decide
      exact hne2 (List.append_eq_nil.mp hd).1
    · intro h
      subst h
      rfl

/-- Seven completed records, for the completed-list limiting scenario. -/
def sevenCompleted : List AgentRec :=
  (List.range 7).map (fun j =>
    [("agentId", Json.str ("a" ++ toString j)), ("status", Json.str "completed")])

/-- C6: the Recent Completions table renders only the first five completed
records in order (`completed[:5]`), so its row count is `min 5` of the
completed count, while the Statistics section receives the length of the FULL
completed filter; with seven completed records the table has exactly five
rows and the rendered statistic reads 7.  The final conjunct records that the
renderer feeds `statsSection` the untruncated count while `completedSection`
sees the same list it truncates. -/
theorem c6_recent_completions_limited (recs : List AgentRec) :
    (completedRows (completedOf recs)).length = min 5 (completedOf recs).length
    ∧ completedRows (completedOf recs) = ((completedOf recs).take 5).map completedRow
    ∧ (completedOf sevenCompleted).length = 7
    ∧ (completedRows (completedOf sevenCompleted)).length = 5
    ∧ statsSection 0 0 0 7
        = "\n## 📊 Statistics\n\n- **Active:** 0\n- **Blocked:** 0\n- **Idle:** 0\n- **Completed (recent):** 7\n"
    ∧ ∀ (env : Env) (c : Clock) (i : Nat),
        renderPhase env c i recs
          = boardHeader env (c.sample i) recs.length
            ++ (activeSection env c (activeOf recs) (i + 1)).1
            ++ blockedSection (blockedOf recs)
            ++ idleSection (idleOf recs)
            ++ completedSection (completedOf recs)
            ++ statsSection (activeOf recs).length (blockedOf recs).length
                (idleOf recs).length (completedOf recs).length
            ++ laneSection recs := by
  refine ⟨?_, rfl, by decide, by decide, by decide, fun env c i => rfl⟩
  simp [completedRows]

/-- An active record whose rendered fields are all strings. -/
def activeRecOf (id st task branch started : String) : AgentRec :=
  [("agentId", Json.str id), ("status", Json.str st), ("task", Json.str task),
   ("branch", Json.str branch), ("started", Json.str started)]

theorem activeDuration_of_started (env : Env) (c : Clock) (i : Nat)
    {r : AgentRec} {s : String}
    (h : lookupField r "started" = some (Json.str s)) (hne : s ≠ "") :
    activeDuration env c i r
      = match env.parseTime (pyReplace s "Z" "+00:00") with
        | some t => (dropDot (pyTimedeltaStr (c.sample i - t)), i + 1)
        | none => ("-", i) := by
  unfold activeDuration
  rw [h]
  have hf : s.isEmpty = false :=
    Bool.eq_false_iff.mpr (fun hc => hne ((String.isEmpty_iff s).mp hc))
  simp [Json.truthy, hf]

/-- C7: in an Active Work row the task renders as exactly its first 30
characters, the branch its first 20 and the start timestamp its first 16,
plain cuts with no suffix; the duration cell is the elapsed time from the
parsed `started` to the clock sample taken for this row, as the timedelta
string with the sub-second part dropped — 90 seconds renders as `0:01:30` —
and the placeholder `-` when `started` fails to parse or is absent. -/
theorem c7_truncation_and_duration (env : Env) (c : Clock) (i : Nat)
    (id st task branch s : String) :
    (activeRow env c i (activeRecOf id st task branch s)).1
        = "| " ++ id ++ " | " ++ statusEmoji (Json.str st) ++ " " ++ st ++ " | "
          ++ task.take 30 ++ " | `" ++ branch.take 20 ++ "` | " ++ s.take 16 ++ " | "
          ++ (activeDuration env c i (activeRecOf id st task branch s)).1 ++ " |\n"
    ∧ (∀ t, s ≠ "" → env.parseTime (pyReplace s "Z" "+00:00") = some t →
        activeDuration env c i (activeRecOf id st task branch s)
          = (dropDot (pyTimedeltaStr (c.sample i - t)), i + 1))
    ∧ (s ≠ "" → env.parseTime (pyReplace s "Z" "+00:00") = some (c.sample i - 90000000) →
        activeDuration env c i (activeRecOf id st task branch s) = ("0:01:30", i + 1))
    ∧ (s ≠ "" → env.parseTime (pyReplace s "Z" "+00:00") = none →
        activeDuration env c i (activeRecOf id st task branch s) = ("-", i))
    ∧ activeDuration env c i [("agentId", Json.str id), ("status", Json.str st)]
        = ("-", i) := by
  have hst : lookupField (activeRecOf id st task branch s) "started"
      = some (Json.str s) := rfl
  refine ⟨rfl, ?_, ?_, ?_, rfl⟩
  · intro t hne hp
    rw [activeDuration_of_started env c i hst hne, hp]
  · intro hne hp
    rw [activeDuration_of_started env c i hst hne, hp]
    have h90 : c.sample i - (c.sample i - 90000000) = 90000000 := by omega
    simp only [h90]
    have : dropDot (pyTimedeltaStr 90000000) = "0:01:30" := by decide
    rw [this]
  · intro hne hp
    rw [activeDuration_of_started env c i hst hne, hp]

/-- An environment whose parser recognizes one fixed instant, for the C7
witness. -/
def envP : Env :=
  ⟨fun s => if s = "2025-01-01T00:00:00+00:00" then some 0 else none,
   fun t => toString t⟩

/-- A clock frozen 90 seconds after the instant `envP` parses. -/
def clk90 : Clock := ⟨fun _ => 90000000⟩

/-- Witness for C7: a record started exactly 90 seconds before render time
renders duration `0:01:30`, and the row shows the hard 30/20/16 cuts. -/
theorem c7_truncation_and_duration_witness :
    activeDuration envP clk90 0
        (activeRecOf "alpha" "in_progress"
          "a task name that is definitely longer than thirty characters"
          "feature/some-rather-long-branch" "2025-01-01T00:00:00Z")
      = ("0:01:30", 1)
    ∧ (activeRow envP clk90 0
          (activeRecOf "alpha" "in_progress"
            "a task name that is definitely longer than thirty characters"
            "feature/some-rather-long-branch" "2025-01-01T00:00:00Z")).1
        = "| " ++ "alpha" ++ " | " ++ statusEmoji (Json.str "in_progress") ++ " "
          ++ "in_progress" ++ " | "
          ++ ("a task name that is definitely longer than thirty characters").take 30
          ++ " | `" ++ ("feature/some-rather-long-branch").take 20 ++ "` | "
          ++ ("2025-01-01T00:00:00Z").take 16 ++ " | "
          ++ (activeDuration envP clk90 0
                (activeRecOf "alpha" "in_progress"
                  "a task name that is definitely longer than thirty characters"
                  "feature/some-rather-long-branch" "2025-01-01T00:00:00Z")).1
          ++ " |\n" := by
  constructor
  · exact (c7_truncation_and_duration envP clk90 0 "alpha" "in_progress"
        "a task name that is definitely longer than thirty characters"
        "feature/some-rather-long-branch" "2025-01-01T00:00:00Z").2.2.1
      (by decide) (by decide)
  · exact (c7_truncation_and_duration envP clk90 0 "alpha" "in_progress"
        "a task name that is definitely longer than thirty characters"
        "feature/some-rather-long-branch" "2025-01-01T00:00:00Z").1

/-- An environment whose parser accepts every timestamp as the epoch. -/
def env8 : Env := ⟨fun _ => some 0, fun t => toString t⟩

/-- A directory with one in-progress record carrying a parseable `started`. -/
def fs8 : FS :=
  ⟨true, [("a.json", .ok (.obj [("agentId", Json.str "a"),
      ("status", Json.str "in_progress"), ("started", Json.str "S")]))]⟩

/-- A clock that advances to 90 seconds after its first sample. -/
def c8a : Clock := ⟨fun i => if i = 0 then (0 : Int) else 90000000⟩

/-- A clock that agrees with `c8a` at the first sample but advances less. -/
def c8b : Clock := ⟨fun i => if i = 0 then (0 : Int) else 60000000⟩

set_option maxRecDepth 10000 in
/-- C8, counterexample.  The source calls `datetime.now` again for every
rendered duration (line 97) after the header call (line 81), so the rendered
document is NOT derived from a single clock capture: two runs whose clocks
agree at the first sample but differ afterwards render different documents
(their durations differ: 0:01:30 against 0:01:00). -/
theorem c8_counterexample :
    c8a.sample 0 = c8b.sample 0
    ∧ (mainRun env8 c8a fs8).board ≠ (mainRun env8 c8b fs8).board := by
  constructor
  · rfl
  · decide

/-- C8 (amended): the header timestamp and every rendered duration come from
separate successive clock samples — the clock is re-sampled for each computed
duration — so the rendered document is a function of the entire sample
sequence: two runs whose clocks agree on EVERY sample render identically,
but agreement on the first capture alone does not suffice. -/
theorem c8_amended_clock_resampled (env : Env) (fs : FS) (c1 c2 : Clock)
    (h : ∀ i, c1.sample i = c2.sample i) :
    mainRun env c1 fs = mainRun env c2 fs := by
  have hc : c1 = c2 := by
    obtain ⟨f1⟩ := c1
    obtain ⟨f2⟩ := c2
    have hf : f1 = f2 := funext h
    rw [hf]
  rw [hc]

/-- Witness for C8 (amended), at a clock equal to `c8a` samplewise. -/
theorem c8_amended_clock_resampled_witness :
    mainRun env8 c8a fs8 = mainRun env8 ⟨fun i => c8a.sample i⟩ fs8 :=
  c8_amended_clock_resampled env8 fs8 c8a ⟨fun i => c8a.sample i⟩ (fun _ => rfl)

/-- C9: a file that parses successfully to a FALSY JSON value — the empty
object, the empty array, 0, false or null — is silently excluded by the
`if agent_data:` test: loading yields the same records as without the file,
and no warning is emitted for it; exclusion is not limited to parse or I/O
failures. -/
theorem c9_falsy_values_silently_dropped
    (pre post : List (String × FileRead)) (n : String) (v : Json)
    (hv : v.truthy = false) :
    loadRecords (pre ++ [(n, FileRead.ok v)] ++ post) = loadRecords (pre ++ post)
    ∧ loadWarnings (pre ++ [(n, FileRead.ok v)] ++ post) = loadWarnings (pre ++ post)
    ∧ (Json.obj []).truthy = false
    ∧ (Json.arr []).truthy = false
    ∧ (Json.num 0).truthy = false
    ∧ (Json.bool false).truthy = false
    ∧ Json.null.truthy = false := by
  refine ⟨?_, ?_, rfl, rfl, by decide, rfl, rfl⟩
  · simp [loadRecords, List.filterMap_append, safe_json_load, hv]
  · simp [loadWarnings, List.filterMap_append]

/-- Witness for C9: a file holding `{}` is dropped without a warning while its
valid sibling is kept. -/
theorem c9_falsy_values_silently_dropped_witness :
    loadRecords ([("good.json", FileRead.ok (Json.obj [("agentId", Json.str "a")]))]
        ++ [("empty.json", FileRead.ok (Json.obj []))] ++ [])
      = loadRecords ([("good.json", FileRead.ok (Json.obj [("agentId", Json.str "a")]))] ++ [])
    ∧ loadWarnings ([("good.json", FileRead.ok (Json.obj [("agentId", Json.str "a")]))]
        ++ [("empty.json", FileRead.ok (Json.obj []))] ++ [])
      = loadWarnings ([("good.json", FileRead.ok (Json.obj [("agentId", Json.str "a")]))] ++ []) :=
  ⟨(c9_falsy_values_silently_dropped
      [("good.json", FileRead.ok (Json.obj [("agentId", Json.str "a")]))] [] "empty.json"
      (Json.obj []) rfl).1,
   (c9_falsy_values_silently_dropped
      [("good.json", FileRead.ok (Json.obj [("agentId", Json.str "a")]))] [] "empty.json"
      (Json.obj []) rfl).2.1⟩

set_option maxRecDepth 10000 in
/-- C10: a file whose content is valid JSON with a truthy non-dict top level
value — here the string "hello", and a non-empty array of strings — passes
the truthiness filter, and the sort key computation then raises
`AttributeError`; the run takes the run-level fatal path: the minimal error
document replaces the board and the process exits non-zero. -/
theorem c10_truthy_non_dict_is_fatal :
    (Json.str "hello").truthy = true
    ∧ aggregate_status envW clkW ⟨true, [("a.json", FileRead.ok (Json.str "hello"))]⟩
        = .error ("AttributeError: str object has no attribute get", 0,
            ⟨true, [("a.json", FileRead.ok (Json.str "hello"))]⟩)
    ∧ (mainRun envW clkW ⟨true, [("a.json", FileRead.ok (Json.str "hello"))]⟩).exitCode = 1
    ∧ (mainRun envW clkW ⟨true, [("a.json", FileRead.ok (Json.str "hello"))]⟩).board
        = errorBoard envW "AttributeError: str object has no attribute get" (clkW.sample 0)
    ∧ (Json.arr [Json.str "x"]).truthy = true
    ∧ (mainRun envW clkW
          ⟨true, [("b.json", FileRead.ok (Json.arr [Json.str "x"]))]⟩).exitCode = 1 := by
  refine ⟨rfl, by decide, by decide, by decide, rfl, by decide⟩
